import Mathlib

/-!
Shallow embedding of the gamemapjs binary codec layer.

Sources embedded here:
* `src/formats/map-cosmo.js`   — Cosmo's Cosmic Adventures handler (Format A)
* `src/formats/map-ddave.js`   — Dangerous Dave handler (Format B)
* `src/interface/map2d.js`     — base `Map2D` class (`queryResize` / `resize`)
* `src/unnamed/part_000`       — base `MapHandler` class (`checkLimits`, `supps`)

Byte buffers (`Uint8Array` plus the cursor-checked reads of
`@camoto/record-io-buffer`) are modelled by a total byte function with an
explicit size; a read past the end is an `Except.error`, matching the
library's fatal out-of-bounds behaviour.  JavaScript `undefined` values are
modelled with `Option`, and statements that would throw (`TypeError`,
`ReferenceError`, `throw new Error`) are modelled as `Except.error`.
-/

namespace Gamemap

/-- A `Uint8Array` together with the bytes it holds.  `data` is queried only
at indices below `size`; elements of a `Uint8Array` are always in 0..255,
which the `% 256` in `byte` enforces. -/
structure Buf where
  data : Nat → Nat
  size : Nat

/-- Direct element access `buf[i]` on a `Uint8Array` (used by the DDave
handler, which indexes the content array without a cursor). -/
def Buf.byte (b : Buf) (i : Nat) : Nat := b.data i % 256

/-- The value of the little-endian u16 stored at byte offset `off`
(no bounds check; used where bounds were already established). -/
def Buf.u16 (b : Buf) (off : Nat) : Nat := b.byte off + 256 * b.byte (off + 1)

/-- A `RecordBuffer` read of `RecordType.int.u16le` at offset `off`:
reading past the end of the buffer is fatal. -/
def Buf.read16 (b : Buf) (off : Nat) : Except String Nat :=
  if off + 2 ≤ b.size then Except.ok (b.u16 off) else Except.error "Read past end of buffer"

end Gamemap

namespace Gamemap.Map_Cosmo

/-- Number of tiles in the background layer (`COSMO_BG_LEN`). -/
def COSMO_BG_LEN : Nat := 32764

/-- Actor-count caps from `map-cosmo.js`. -/
def MAX_PLAYERS : Nat := 1

def MAX_PLATFORMS : Nat := 10

def MAX_LIGHTS : Nat := 199

def MAX_ACTORS : Nat := 410

/-- The six attribute values the Cosmo handler stores on the map
(`map.attributes[..].value` for bgmusic, animation, backdrop, bgScrollX,
bgScrollY and rain; the surrounding descriptor fields are static). -/
structure CosmoFlags where
  music : Nat
  animation : Nat
  bgScrollY : Bool
  bgScrollX : Bool
  rain : Bool
  backdrop : Nat
deriving DecidableEq, Repr

/-- Lines 366-373 of `map-cosmo.js`: unpack the u16 header `flags` word into
the six attribute values. -/
def decodeFlags (flags : Nat) : CosmoFlags :=
  ⟨(flags >>> 11) &&& 0x1F,
   (flags >>> 8) &&& 0x07,
   flags &&& 0x80 ≠ 0,
   flags &&& 0x40 ≠ 0,
   flags &&& 0x20 ≠ 0,
   flags &&& 0x1F⟩

/-- Lines 465-472 of `map-cosmo.js`: pack the six attribute values back into
the u16 header `flags` word. -/
def encodeFlags (a : CosmoFlags) : Nat :=
  ((a.music &&& 0x1F) <<< 11)
    ||| ((a.animation &&& 0x07) <<< 8)
    ||| (if a.bgScrollY then 0x80 else 0)
    ||| (if a.bgScrollX then 0x40 else 0)
    ||| (if a.rain then 0x20 else 0)
    ||| (a.backdrop &&& 0x1F)

/-- Lines 394-408 of `map-cosmo.js`: the on-disk u16 tile code to logical
tile code transform used by `parse`.  A zero code becomes a blank
(`undefined`, here `none`).  Otherwise `Math.floor(code / 8)` is taken, and
codes above the 2000 threshold are remapped via `2000 + (tileCode - 2000)/5`
— a plain JavaScript division, so the logical code can be fractional; tile
codes are therefore modelled as rationals. -/
def decodeTile (code : Nat) : Option ℚ :=
  if code = 0 then none
  else
    let tileCode : ℚ := ((code / 8 : Nat) : ℚ)
    if 2000 < tileCode then some (2000 + (tileCode - 2000) / 5) else some tileCode

/-- Line 495 of `map-cosmo.js`: the value written back for one cell,
`tileCodes[y][x] || 0` — a blank cell (or a falsy 0) is written as 0. -/
def encodeTile (t : Option ℚ) : ℚ :=
  match t with
  | none => 0
  | some v => if v = 0 then 0 else v

/-- One actor record (3 × u16le: `type`, `x`, `y`; `parse` renames `type` to
`code`). -/
structure CosmoActor where
  x : Nat
  y : Nat
  code : Nat
deriving DecidableEq, Repr

/-- One element of the `map.layers` array.  `Map2D_Cosmo`'s constructor
pushes only `Layer_CosmoBG` (the `Layer_CosmoActors` push on line 262 is
commented out), but `checkLimits` and `generate` still index `layers[1]`
expecting a list layer with `items`, so both layer shapes are modelled. -/
inductive CosmoLayer where
  | bg (tiles : List (List (Option ℚ)))
  | actors (items : List CosmoActor)
deriving DecidableEq

/-- The parts of a `Map2D_Cosmo` instance the handler itself reads back:
the six attribute values, the `layers` array and `mapSize`.  `Map2D`'s
constructor initialises `mapSize` to `undefined` and `Map2D_Cosmo` never
assigns it, so `parse` always leaves it `none`. -/
structure CosmoMap where
  attrs : CosmoFlags
  layers : List CosmoLayer
  mapSize : Option (Nat × Nat)
deriving DecidableEq

/-- Lines 377-386 of `map-cosmo.js`: the actor-record loop.  The loop bound
is `header.lenActorChunk / ACTOR_LEN_UINT16` with `ACTOR_LEN_UINT16 = 3`
under JavaScript (real) division, so the number of iterations of
`i = 0, 1, ...` while `i < lenActorChunk / 3` is `⌈lenActorChunk / 3⌉`. -/
def actorIters (lenActorChunk : Nat) : Nat := (lenActorChunk + 2) / 3

/-- The actor-record loop itself: record `i` is 3 consecutive u16le at byte
offset `6 + 6*i` (the cursor starts right after the 6-byte header and each
record advances it 6 bytes).  The reads are contiguous and ascending, so the
loop hits an out-of-bounds fault iff the final byte `6 + 6*n - 1` is past
the end. -/
def readActors (b : Buf) (n : Nat) : Except String (List CosmoActor) :=
  if n = 0 ∨ 6 + 6 * n ≤ b.size then
    Except.ok ((List.range n).map fun i =>
      ⟨b.u16 (6 + 6 * i + 2), b.u16 (6 + 6 * i + 4), b.u16 (6 + 6 * i)⟩)
  else Except.error "Read past end of buffer"

/-- Lines 390-409 of `map-cosmo.js`: the background-tile loop.  Starting at
byte `tileStart`, it reads `mapH` rows of `mapW` u16le codes in raster
order (the cursor advances 2 bytes per read, so the cell `(x, y)` comes
from byte offset `tileStart + 2*(y*mapW + x)`), passing each through the
tile-code transform.  As with the actors, the contiguous ascending reads
fault iff the last byte is out of bounds. -/
def readTiles (b : Buf) (tileStart mapW mapH : Nat) :
    Except String (List (List (Option ℚ))) :=
  if mapW * mapH = 0 ∨ tileStart + 2 * (mapW * mapH) ≤ b.size then
    Except.ok ((List.range mapH).map fun y => (List.range mapW).map fun x =>
      decodeTile (b.u16 (tileStart + 2 * (y * mapW + x))))
  else Except.error "Read past end of buffer"

/-- Lines 359-458 of `map-cosmo.js`: `Map_Cosmo.parse`.  Reads the 6-byte
header, the actor records (which `Map2D_Cosmo`'s constructor then ignores,
its actor-layer push being commented out) and the background grid of
`mapWidth × Math.floor(32764 / mapWidth)` tiles, then stores the six flag
attributes on the map. -/
def parse (b : Buf) : Except String CosmoMap := do
  let flags ← b.read16 0
  let mapWidth ← b.read16 2
  let lenActorChunk ← b.read16 4
  let _actors ← readActors b (actorIters lenActorChunk)
  if mapWidth = 0 then
    -- JavaScript: `mapH = Math.floor(32764 / 0)` is `Infinity` and the row
    -- loop never terminates; modelled as a failure (no claim reaches it).
    Except.error "non-terminating tile loop"
  else
    let mapH := COSMO_BG_LEN / mapWidth
    let tileStart := 6 + 6 * actorIters lenActorChunk
    let tiles ← readTiles b tileStart mapWidth mapH
    Except.ok ⟨decodeFlags flags, [CosmoLayer.bg tiles], none⟩

/-- Little-endian bytes of a u16 value, as `RecordBuffer` writes them. -/
def u16Bytes (v : Nat) : List Nat := [v % 256, v / 256 % 256]

/-- The u16 written for a (possibly fractional) logical tile code:
`DataView.setUint16` truncates the number to an integer modulo 2^16. -/
def qToU16 (v : ℚ) : Nat := (Int.toNat ⌊v⌋) % 65536

/-- Lines 460-501 of `map-cosmo.js`: `Map_Cosmo.generate`.  Line 461 reads
`map.layers[1].items.length` — `layers[1]` is `undefined` on every map
`parse` builds (only the background layer is pushed), which throws.  Line
463 reads `map.mapSize.x`, and `mapSize` is likewise never set.  The rest
re-serialises the header, the actor records and exactly `COSMO_BG_LEN`
tile writes of `tileCodes[y][x] || 0` (with `y = Math.floor(i / mapX)`;
a row index past the end of the `tiles` array is a `TypeError`, while a
column index past the end of a row reads `undefined` and writes 0). -/
def generate (m : CosmoMap) : Except String (List Nat) := do
  let actorItems ←
    match m.layers.get? 1 with
    | some (CosmoLayer.actors its) => Except.ok its
    | _ => Except.error "TypeError: cannot read properties of undefined"
  let mapX ←
    match m.mapSize with
    | some s => Except.ok s.1
    | none => Except.error "TypeError: cannot read properties of undefined"
  let flags := encodeFlags m.attrs
  let lenActorChunk := actorItems.length * 3
  let headerBytes := u16Bytes flags ++ u16Bytes mapX ++ u16Bytes lenActorChunk
  let actorBytes := (actorItems.map fun a => u16Bytes a.code ++ u16Bytes a.x ++ u16Bytes a.y).flatten
  let tiles ←
    match m.layers.get? 0 with
    | some (CosmoLayer.bg t) => Except.ok t
    | _ => Except.error "TypeError: cannot read properties of undefined"
  if mapX = 0 then
    -- JavaScript: `Math.floor(i / 0)` is `Infinity`, so `tileCodes[Infinity]`
    -- is `undefined` and the write throws.
    Except.error "TypeError: cannot read properties of undefined"
  else if (List.range COSMO_BG_LEN).all (fun i => i / mapX < tiles.length) then
    Except.ok (headerBytes ++ actorBytes ++
      ((List.range COSMO_BG_LEN).map fun i =>
        u16Bytes (qToU16 (encodeTile (((tiles.getD (i / mapX) []).get? (i % mapX)).join)))).flatten)
  else Except.error "TypeError: cannot read properties of undefined"

/-- Lines 328-357 of `map-cosmo.js`: `Map_Cosmo.checkLimits`.  Starts from
`super.checkLimits` (always `[]` — its only push is under `if (false)`),
then reads `map.layers[1].items`; on a map without a list layer in slot 1
(every map `parse` builds) that throws a `TypeError`.  Otherwise it counts
actors per category and returns the collected issue strings. -/
def checkLimits (m : CosmoMap) : Except String (List String) := do
  let issues : List String := []
  let items ←
    match m.layers.get? 1 with
    | some (CosmoLayer.actors its) => Except.ok its
    | _ => Except.error "TypeError: cannot read properties of undefined"
  let actorCount := items.length
  let issues := issues ++
    (if MAX_ACTORS < actorCount then
      ["There are too many items in the actor layer (" ++ toString actorCount
        ++ "), the maximum is " ++ toString MAX_ACTORS ++ "."] else [])
  let playerCount := (items.filter fun a => a.code = 0).length
  let platformCount := (items.filter fun a => 1 ≤ a.code ∧ a.code ≤ 5).length
  let lightCount := (items.filter fun a => 6 ≤ a.code ∧ a.code ≤ 8).length
  let issues := issues ++
    (if MAX_PLAYERS < playerCount then
      ["There are too many player sprites in the actor layer (" ++ toString playerCount
        ++ "), the maximum is " ++ toString MAX_PLAYERS ++ "."] else [])
  let issues := issues ++
    (if MAX_PLATFORMS < platformCount then
      ["There are too many platform/mud fountain sprites in the actor layer ("
        ++ toString platformCount ++ "), the maximum is " ++ toString MAX_PLATFORMS ++ "."] else [])
  let issues := issues ++
    (if MAX_LIGHTS < lightCount then
      ["There are too many light sprites in the actor layer (" ++ toString lightCount
        ++ "), the maximum is " ++ toString MAX_LIGHTS ++ "."] else [])
  Except.ok issues

/-- `checkLimits` receives the map object by reference; every write in its
body targets the local `issues` array, never the map, so its effect on the
map is the identity.  This wrapper returns the (unchanged) map alongside
the call's result to make that heap effect explicit. -/
def checkLimitsRun (m : CosmoMap) : CosmoMap × Except String (List String) :=
  (m, checkLimits m)

end Gamemap.Map_Cosmo

namespace Gamemap.Map_DDave

/-- Size of the path-delta region in bytes (`DD_LAYER_LEN_PATH`). -/
def DD_LAYER_LEN_PATH : Nat := 256

/-- Maximum number of points in the path (`DD_MAX_PATH`). -/
def DD_MAX_PATH : Nat := 128

/-- The byte used in both coordinates to terminate a path (`DD_PATH_END`). -/
def DD_PATH_END : Nat := 0xEA

/-- A waypoint of a path.  Coordinates are JavaScript numbers (a caller can
place points anywhere and `checkLimits` subtracts them), so integers. -/
structure DPoint where
  x : Int
  y : Int
deriving DecidableEq, Repr

/-- One record of the optional `enemy` supplementary buffer, as read by
`parse` (lines 251-269). -/
structure DEnemy where
  enabled : Bool
  pixelX : Nat
  pixelY : Nat
  pathOffset : Nat
  calmness : Nat
deriving DecidableEq, Repr

/-- One item of the `MapLayer_DDave_Monsters` list layer. -/
structure DItem where
  x : Nat
  y : Int
  code : Nat
deriving DecidableEq, Repr

/-- The parts of a `Map2D_DDave` instance the handler reads back:
`layers[0]` is the background tile grid, `layers[1]` the monster item list.
`Map2D` has no `paths` field and `parse` never sets one (its
`map.paths.push(path)` is commented out), so on parsed maps `paths` is
`undefined` (`none`); external editing code could still attach one, which
`checkLimits` inspects. -/
structure DDaveMap where
  bgTiles : List (List Nat)
  monsters : List DItem
  paths : Option (List (List DPoint))
deriving DecidableEq, Repr

/-- Lines 216-227 of `map-ddave.js`: the path-reading loop.  Scans byte
pairs `(content[i], content[i+1])` for `i = 0, 2, ..., 254` (128 pairs),
stopping at the first `(0xEA, 0xEA)` pair. -/
def readPathAux (b : Buf) (i fuel : Nat) : List DPoint :=
  match fuel with
  | 0 => []
  | fuel + 1 =>
    if b.byte i = DD_PATH_END ∧ b.byte (i + 1) = DD_PATH_END then []
    else ⟨b.byte i, b.byte (i + 1)⟩ :: readPathAux b (i + 2) fuel

/-- The whole path region holds `DD_LAYER_LEN_PATH / 2 = 128` pairs. -/
def readPath (b : Buf) : List DPoint := readPathAux b 0 (DD_LAYER_LEN_PATH / 2)

/-- Lines 248-270 of `map-ddave.js`: the enemy-record loop over the optional
`enemy` buffer.  Record `i` starts at `seekAbs(2*i)`; each field read is a
u16le and is followed by `seekRel(6)`, so the five fields sit at byte
offsets `2i`, `2i+8`, `2i+16`, `2i+24` and `2i+32`. -/
def readEnemies (b : Buf) : Except String (List DEnemy) :=
  (List.range 4).mapM fun i => do
    let en ← b.read16 (2 * i)
    let px ← b.read16 (2 * i + 8)
    let py ← b.read16 (2 * i + 16)
    let po ← b.read16 (2 * i + 24)
    let ca ← b.read16 (2 * i + 32)
    pure ⟨en != 0, px, py, po, ca⟩

/-- Lines 84-98 of `map-ddave.js`: `MapLayer_DDave_Monsters`'s constructor
keeps the enabled records, with the lower-left pixel Y shifted up by the
16-pixel sprite height and the record index as the item code. -/
def monstersOf (enemyInfo : List DEnemy) : List DItem :=
  enemyInfo.enum.filterMap fun p =>
    if p.2.enabled then some ⟨p.2.pixelX, (p.2.pixelY : Int) - 16, p.1⟩ else none

/-- The body of `parse` once the size variant is known: the path region (if
any) is read and then discarded (the `map.paths.push(path)` on line 228 is
commented out), the `mapW × mapH` grid is read byte-per-tile in raster
order starting right after the path region, and the enemy buffer, when
supplied, populates the monster layer. -/
def parseSized (main : Buf) (enemy : Option Buf) (mapW mapH : Nat) (hasPath : Bool) :
    Except String DDaveMap := do
  let _path := if hasPath then readPath main else []
  let offset := if hasPath then DD_LAYER_LEN_PATH else 0
  let bgTiles := (List.range mapH).map fun y => (List.range mapW).map fun x =>
    main.byte (offset + (y * mapW + x))
  let enemyList ←
    match enemy with
    | none => Except.ok []
    | some e => readEnemies e
  Except.ok ⟨bgTiles, monstersOf enemyList, none⟩

/-- Lines 195-275 of `map-ddave.js`: `Map_DDave.parse`.  Exactly two main
buffer sizes are recognised: 70 bytes (10×7 title-screen grid, no path
region) and 1280 bytes (100×10 grid preceded by the 256-byte path region);
anything else throws before any part of the map is built.  (`options` is
left at its `{}` default: no caller in the repository passes
`playerStartX`, whose branch would fault on the undefined
`MapLayer_DDave_Player` class anyway.) -/
def parse (main : Buf) (enemy : Option Buf) : Except String DDaveMap :=
  if main.size = 10 * 7 then parseSized main enemy 10 7 false
  else if main.size = 1280 then parseSized main enemy 100 10 true
  else Except.error "Unrecognised map size"

/-- The issue text pushed for a path point whose delta collides with the
terminator (lines 183-186); `index` is the zero-based `forEach` index. -/
def pointIssue (pt : DPoint) (index : Nat) : String :=
  "Point #" ++ toString (index + 1) ++ " in the path at (" ++ toString pt.x
    ++ ", " ++ toString pt.y
    ++ ") ends up at a special value reserved for indicating the end of the"
    ++ " path.  Please move this point by at least one pixel in any direction"
    ++ " to avoid this conflict."

/-- Lines 177-191 of `map-ddave.js`: the `forEach` that collects an issue
for every consecutive pair of points whose delta is `(0xEA, 0xEA)`.
`last` is the previous point and `index` the `forEach` index of the head. -/
def sentinelIssuesAux : List DPoint → DPoint → Nat → List String
  | [], _, _ => []
  | pt :: rest, last, index =>
    (if pt.x - last.x = (DD_PATH_END : Int) ∧ pt.y - last.y = (DD_PATH_END : Int) then
      [pointIssue pt index] else [])
      ++ sentinelIssuesAux rest pt (index + 1)

/-- The issue list the `forEach` builds for a whole path (the first point
has no predecessor and is skipped). -/
def sentinelIssues : List DPoint → List String
  | [] => []
  | p0 :: rest => sentinelIssuesAux rest p0 1

/-- Lines 168-193 of `map-ddave.js`: `Map_DDave.checkLimits`.  Starts from
`super.checkLimits()` (always `[]`) and, when `map.paths[0]` exists,
collects the over-length and sentinel-collision issues — but the function
body ends without a `return` statement, so every successful call hands the
caller `undefined` (`none`) and the collected issues are lost.  Worse, the
over-length push reads `map.path[0].length` (note: `path`, not `paths`),
which throws a `TypeError` since no `path` property exists. -/
def checkLimits (m : DDaveMap) : Except String (Option (List String)) :=
  match m.paths with
  | none => Except.ok none
  | some [] => Except.ok none
  | some (p :: _) =>
    if DD_MAX_PATH < p.length then
      Except.error "TypeError: cannot read properties of undefined"
    else
      let _issues := sentinelIssues p
      Except.ok none

/-- As for the Cosmo handler: `checkLimits` never writes to the map it is
handed (its only writes target the local `issues` array), so the heap
effect on the map is the identity; this wrapper returns the unchanged map
alongside the call's result. -/
def checkLimitsRun (m : DDaveMap) : DDaveMap × Except String (Option (List String)) :=
  (m, checkLimits m)

/-- Lines 279-315 of `map-ddave.js`: `Map_DDave.generate`.  Its first
statement evaluates `new RecordBuffer(DD_FILESIZE)`, but `DD_FILESIZE`
(together with `DD_LAYER_LEN_BG`, and the `DD_MAP_WIDTH` / `DD_MAP_HEIGHT`
used further down) is commented out at the top of the file (lines 40 and
45), so every call throws a `ReferenceError` before a single byte —
path delta, terminator pair or tile — is written. -/
def generate (_m : DDaveMap) : Except String (List Nat) :=
  Except.error "ReferenceError: DD_FILESIZE is not defined"

end Gamemap.Map_DDave

namespace Gamemap.MapHandler

/-- Lines 105-108 of `src/unnamed/part_000`: the base `MapHandler.supps`
returns `null` whatever the filename and content are.  A handler's supp
table maps supp identifiers to filenames. -/
def supps (_name : String) (_content : Buf) : Option (List (String × String)) :=
  none

end Gamemap.MapHandler

namespace Gamemap

/-- `Map_Cosmo` defines no `supps` of its own, so it inherits the base
`MapHandler.supps`. -/
def Map_Cosmo.supps (name : String) (content : Buf) : Option (List (String × String)) :=
  MapHandler.supps name content

/-- `Map_DDave` likewise defines no `supps` and inherits the base one. -/
def Map_DDave.supps (name : String) (content : Buf) : Option (List (String × String)) :=
  MapHandler.supps name content

end Gamemap

namespace Gamemap.Map2D

/-- A JavaScript number as it can arise inside `queryResize`: either an
ordinary number or `NaN` (`Math.min`/`Math.max` against an `undefined`
limit produce `NaN`). -/
inductive JsNum where
  | num (v : Int)
  | nan
deriving DecidableEq, Repr

/-- `Math.min(a, b)` where `b` is a possibly-`undefined` limit:
`Math.min(x, undefined)` is `NaN`. -/
def jsMin (a : JsNum) (b : Option Int) : JsNum :=
  match a, b with
  | _, none => JsNum.nan
  | JsNum.nan, _ => JsNum.nan
  | JsNum.num x, some y => JsNum.num (min x y)

/-- `Math.max(a, b)` with a plain number bound: `NaN` propagates. -/
def jsMax (a : JsNum) (b : Int) : JsNum :=
  match a with
  | JsNum.nan => JsNum.nan
  | JsNum.num x => JsNum.num (max x b)

/-- Lines 159-166 of `src/interface/map2d.js`: the base
`Map2D.queryResize`.  It clamps the proposed size against the constructor's
limits (`minimumMapSize = {0, 0}`, `maximumMapSize = {undefined, undefined}`,
so both clamps produce `NaN`) into the local `permitted` — and then the
function body ends on line 166 with no `return` statement, so the caller
always receives `undefined` (`none`); the computed value is discarded. -/
def queryResize (proposed : Int × Int) : Option (JsNum × JsNum) :=
  let px := jsMax (jsMin (JsNum.num proposed.1) none) 0
  let py := jsMax (jsMin (JsNum.num proposed.2) none) 0
  let _permitted := (px, py)
  none

/-- Lines 207-212 of `src/interface/map2d.js`: the base `Map2D.resize`.
It calls `queryResize` and compares `permitted.x`/`permitted.y` against the
proposal — but `permitted` is always `undefined`, so reading `permitted.x`
throws a `TypeError` on every call. -/
def resize (newSize : Int × Int) : Except String Unit :=
  match queryResize newSize with
  | none => Except.error "TypeError: cannot read properties of undefined"
  | some permitted =>
    if permitted.1 ≠ JsNum.num newSize.1 ∨ permitted.2 ≠ JsNum.num newSize.2 then
      Except.error "Requested map size is invalid."
    else Except.ok ()

end Gamemap.Map2D

namespace Gamemap

/-! ### Concrete inputs used by the theorems -/

/-- A well-formed Format A file: header `flags = 0`, `mapWidth = 256`,
`lenActorChunk = 0`, followed by an all-zero tile region.  Its size is the
spec's `6 + lenActorChunk + 65528 = 65534` bytes. -/
def bufCosmo : Buf := ⟨fun i => if i = 3 then 1 else 0, 65534⟩

/-- The same header, but the buffer ends right after `256 × 127 = 32512`
tile codes: `6 + 2*32512 = 65030` bytes. -/
def bufCosmoShort : Buf := ⟨fun i => if i = 3 then 1 else 0, 65030⟩

/-- One byte fewer still: the 32512-th tile code is cut in half. -/
def bufCosmoShort1 : Buf := ⟨fun i => if i = 3 then 1 else 0, 65029⟩

/-- A 69-byte buffer: not a recognised Format B size. -/
def bufD69 : Buf := ⟨fun _ => 0, 69⟩

/-- The all-zero 70-byte Format B title-screen file. -/
def bufD70 : Buf := ⟨fun _ => 0, 70⟩

/-- An all-zero 1280-byte Format B level file. -/
def bufD1280 : Buf := ⟨fun _ => 0, 1280⟩

/-- A 40-byte enemy supplementary buffer of all `0x01` bytes: every record's
`enabled` word is `0x0101 ≠ 0`, so all four enemies are enabled. -/
def bufEnemy : Buf := ⟨fun _ => 1, 40⟩

/-- A path whose second point sits at pixel delta `(0xEA, 0xEA)` from the
first — the delta that collides with the path terminator. -/
def pathEA : List Map_DDave.DPoint := [⟨0, 0⟩, ⟨0xEA, 0xEA⟩]

/-- A two-point path with an innocuous delta. -/
def pathOK : List Map_DDave.DPoint := [⟨0, 0⟩, ⟨1, 1⟩]

/-- A DDave map whose (caller-attached) path collides with the terminator. -/
def mapEA : Map_DDave.DDaveMap := ⟨[[0]], [], some [pathEA]⟩

/-- A DDave map whose path is clean and far under 128 points. -/
def mapOK : Map_DDave.DDaveMap := ⟨[[0]], [], some [pathOK]⟩

/-! ### Theorems for the claims -/

/-- C3: for Format A, encoding the attribute values music=5, animation=3,
bgScrollX=true, bgScrollY=false, rain=true, backdrop=17 into the 16-bit
header flags word (bits 11-15 music, bits 8-10 animation, bit 7 vertical
scroll, bit 6 horizontal scroll, bit 5 rain, bits 0-4 backdrop) and then
decoding that word reproduces exactly these six values. -/
theorem cosmo_flags_roundtrip :
    Map_Cosmo.decodeFlags (Map_Cosmo.encodeFlags ⟨5, 3, false, true, true, 17⟩)
      = ⟨5, 3, false, true, true, 17⟩ := by decide

/-- C2: in Format A's parse, an on-disk u16 tile code of 0 becomes the
"no tile" value and the per-cell write in generate puts it back as 0; a
non-zero code `c` becomes `⌊c/8⌋`, except that when `⌊c/8⌋` exceeds the
2000 threshold the masked-foreground remapping `2000 + (⌊c/8⌋ - 2000)/5`
is applied. -/
theorem cosmo_tile_code_roundtrip :
    Map_Cosmo.decodeTile 0 = none
    ∧ Map_Cosmo.encodeTile none = 0
    ∧ (∀ c : Nat, c ≠ 0 → c / 8 ≤ 2000 →
        Map_Cosmo.decodeTile c = some ((c / 8 : Nat) : ℚ))
    ∧ (∀ c : Nat, 2000 < c / 8 →
        Map_Cosmo.decodeTile c = some (2000 + (((c / 8 : Nat) : ℚ) - 2000) / 5)) := by
  refine ⟨rfl, rfl, ?_, ?_⟩
  · intro c hc hle
    have h2 : ¬ (2000 : ℚ) < ((c / 8 : Nat) : ℚ) := by exact_mod_cast not_lt.mpr hle
    simp [Map_Cosmo.decodeTile, hc, h2]
  · intro c hgt
    have hc : c ≠ 0 := by
      intro h
      rw [h] at hgt
      exact absurd hgt (by decide)
    have h2 : (2000 : ℚ) < ((c / 8 : Nat) : ℚ) := by exact_mod_cast hgt
    simp [Map_Cosmo.decodeTile, hc, h2]

/-- Witness for C2: the tile-code transform evaluated at the concrete
codes 16 (plain case, `⌊16/8⌋ = 2`) and 16064 (masked case,
`⌊16064/8⌋ = 2008`, remapped to `2000 + 8/5`). -/
theorem cosmo_tile_code_roundtrip_witness :
    Map_Cosmo.decodeTile 16 = some 2
    ∧ Map_Cosmo.decodeTile 16064 = some (2000 + 8 / 5) := by
  constructor
  · have h := cosmo_tile_code_roundtrip.2.2.1 16 (by decide) (by decide)
    simpa using h
  · have h := cosmo_tile_code_roundtrip.2.2.2 16064 (by decide)
    norm_num at h ⊢
    exact h

/-- C9: the base `Map2D.resize` throws for every proposed size, even one
identical to the current size, because `Map2D.queryResize` computes the
clamped size but falls through without returning it; no map relying on the
base implementation can ever be resized successfully. -/
theorem map2d_resize_always_throws (p : Int × Int) :
    Map2D.resize p = Except.error "TypeError: cannot read properties of undefined" := rfl

/-- C10: for both shipped handlers and every filename/content argument,
`supps` returns null (neither overrides the base default) — even though
Format B's `parse` accepts and uses an optional `enemy` supplementary
buffer: supplying one with all four records enabled yields four monster
items where the same main file without it yields none. -/
theorem supps_always_null (name : String) (content : Buf) :
    Map_Cosmo.supps name content = none
    ∧ Map_DDave.supps name content = none
    ∧ (Map_DDave.parse bufD70 (some bufEnemy)).map (fun m => m.monsters.length)
        = Except.ok 4
    ∧ (Map_DDave.parse bufD70 none).map (fun m => m.monsters.length)
        = Except.ok 0 := by
  refine ⟨rfl, rfl, ?_, rfl⟩
  rfl

/-- C8: for both format handlers, `checkLimits` leaves the map it is given
unchanged, and consequently a second call on the map coming out of the
first yields exactly the same result as the first. -/
theorem checkLimits_no_mutation (mc : Map_Cosmo.CosmoMap) (md : Map_DDave.DDaveMap) :
    (Map_Cosmo.checkLimitsRun mc).1 = mc
    ∧ (Map_Cosmo.checkLimitsRun (Map_Cosmo.checkLimitsRun mc).1).2
        = (Map_Cosmo.checkLimitsRun mc).2
    ∧ (Map_DDave.checkLimitsRun md).1 = md
    ∧ (Map_DDave.checkLimitsRun (Map_DDave.checkLimitsRun md).1).2
        = (Map_DDave.checkLimitsRun md).2 :=
  ⟨rfl, rfl, rfl, rfl⟩

/-- C1 (code bug): `generate(parse(content)).main` is never byte-for-byte
identical to `content.main` because `generate` throws on every parsed map
of both formats.  On the well-formed Format A file `bufCosmo`, parse
succeeds but generate faults reading `map.layers[1].items` (parse pushes
only the background layer) — and would fault on `map.mapSize.x` next.  On
the well-formed Format B file `bufD1280`, parse succeeds but generate's
first statement references the commented-out `DD_FILESIZE`. -/
theorem roundtrip_identity_fails :
    (Map_Cosmo.parse bufCosmo).isOk = true
    ∧ Except.bind (Map_Cosmo.parse bufCosmo) Map_Cosmo.generate
        = Except.error "TypeError: cannot read properties of undefined"
    ∧ (Map_DDave.parse bufD1280 none).isOk = true
    ∧ Except.bind (Map_DDave.parse bufD1280 none) Map_DDave.generate
        = Except.error "ReferenceError: DD_FILESIZE is not defined" :=
  ⟨rfl, rfl, rfl, rfl⟩

/-- C4 (code bug): `Map_DDave.checkLimits` ends without a `return`
statement, so it hands every caller `undefined` instead of the issue list —
shown here both on the map parsed from the 70-byte title screen and on a
map with a clean caller-attached path; and `Map_Cosmo.checkLimits` throws a
`TypeError` on its own parsed maps (it reads `map.layers[1].items` but
parse never pushes the actor layer). -/
theorem checkLimits_returns_undefined :
    Except.bind (Map_DDave.parse bufD70 none) Map_DDave.checkLimits = Except.ok none
    ∧ Map_DDave.checkLimits mapOK = Except.ok none
    ∧ Except.bind (Map_Cosmo.parse bufCosmo) Map_Cosmo.checkLimits
        = Except.error "TypeError: cannot read properties of undefined" :=
  ⟨rfl, rfl, rfl⟩

/-- C5 (code bug): for a path whose second point sits at delta
`(0xEA, 0xEA)`, the `forEach` inside `Map_DDave.checkLimits` does build the
collision issue — but the function returns `undefined`, so the caller's
issue list never materialises; the clean short path also yields `undefined`
rather than an empty list; and `generate` throws its `ReferenceError`
before it could emit the terminator pair. -/
theorem ddave_sentinel_bug :
    (Map_DDave.sentinelIssues pathEA).length = 1
    ∧ Map_DDave.sentinelIssues pathOK = []
    ∧ Map_DDave.checkLimits mapEA = Except.ok none
    ∧ Map_DDave.checkLimits mapOK = Except.ok none
    ∧ Map_DDave.generate mapOK
        = Except.error "ReferenceError: DD_FILESIZE is not defined" :=
  ⟨rfl, rfl, rfl, rfl, rfl⟩

/-- C6: Format B's parse recognises exactly two main-buffer sizes — 70
bytes yields the 10×7 grid read from offset 0 (no path region), 1280 bytes
yields the 100×10 grid read from offset 256 (preceded by the 256-byte
path-delta region) — and any other length fails immediately with the
"Unrecognised map size" error, returning no partial map. -/
theorem ddave_parse_two_sizes (b : Buf) :
    (∀ m, Map_DDave.parse b none = Except.ok m → b.size = 70 ∨ b.size = 1280)
    ∧ (b.size = 70 →
        Map_DDave.parse b none = Except.ok
          ⟨(List.range 7).map fun y => (List.range 10).map fun x =>
              b.byte (y * 10 + x),
           [], none⟩)
    ∧ (b.size = 1280 →
        Map_DDave.parse b none = Except.ok
          ⟨(List.range 10).map fun y => (List.range 100).map fun x =>
              b.byte (256 + (y * 100 + x)),
           [], none⟩)
    ∧ (b.size ≠ 70 → b.size ≠ 1280 →
        Map_DDave.parse b none = Except.error "Unrecognised map size") := by
  refine ⟨?_, ?_, ?_, ?_⟩
  · intro m hm
    by_cases h70 : b.size = 70
    · exact Or.inl h70
    by_cases h1280 : b.size = 1280
    · exact Or.inr h1280
    rw [Map_DDave.parse, if_neg (by simpa using h70), if_neg h1280] at hm
    exact absurd hm (by simp)
  · intro h70
    rw [Map_DDave.parse, if_pos (by simpa using h70)]
    show Except.ok _ = _
    refine congrArg Except.ok ?_
    refine congrArg (fun t => Map_DDave.DDaveMap.mk t [] none) ?_
    simp [Nat.zero_add]
  · intro h1280
    rw [Map_DDave.parse, if_neg (by simp [h1280]), if_pos h1280]
    rfl
  · intro h70 h1280
    rw [Map_DDave.parse, if_neg (by simpa using h70), if_neg h1280]

/-- Witness for C6: the three size classes at concrete inputs — the all-zero
70-byte file parses to the all-blank 10×7 grid, the all-zero 1280-byte file
parses successfully, and a 69-byte file is rejected. -/
theorem ddave_parse_two_sizes_witness :
    Map_DDave.parse bufD70 none
      = Except.ok ⟨List.replicate 7 (List.replicate 10 0), [], none⟩
    ∧ (Map_DDave.parse bufD1280 none).isOk = true
    ∧ Map_DDave.parse bufD69 none = Except.error "Unrecognised map size" := by
  refine ⟨?_, ?_, (ddave_parse_two_sizes bufD69).2.2.2 (by decide) (by decide)⟩
  · have h := (ddave_parse_two_sizes bufD70).2.1 rfl
    rw [h]
    exact congrArg Except.ok (by decide)
  · have h := (ddave_parse_two_sizes bufD1280).2.2.1 rfl
    rw [h]
    rfl

/-- C7 counterexample: parsing with `mapWidth = 256` does NOT consume 32764
u16 tile codes — a file that ends right after `256 × ⌊32764/256⌋ = 32512`
codes (65030 bytes, 504 bytes less than the full 65534-byte layout) parses
successfully, which would be impossible if 32764 codes were read. -/
theorem cosmo_size_derivation_cex :
    (Map_Cosmo.parse bufCosmoShort).isOk = true
    ∧ bufCosmoShort.size = 6 + 2 * 32512
    ∧ bufCosmoShort.size < 6 + 2 * Map_Cosmo.COSMO_BG_LEN
    ∧ (32512 : Nat) ≠ 32764 :=
  ⟨rfl, by decide, by decide, by decide⟩

/-- C7 as amended: parsing a file whose `mapWidth` field is 256 yields a
background grid of exactly 127 rows of 256 columns, consuming exactly
`256 × 127 = 32512` u16 codes — the buffer may end right after those 32512
codes, and one byte fewer makes parse fail. -/
theorem cosmo_size_derivation :
    ∃ tiles : List (List (Option ℚ)),
      Map_Cosmo.parse bufCosmoShort
          = Except.ok ⟨Map_Cosmo.decodeFlags 0, [Map_Cosmo.CosmoLayer.bg tiles], none⟩
        ∧ tiles.length = 127
        ∧ tiles.map List.length = List.replicate 127 256
        ∧ bufCosmoShort.size = 6 + 2 * (256 * 127)
        ∧ Map_Cosmo.parse bufCosmoShort1 = Except.error "Read past end of buffer" := by
  refine ⟨(List.range 127).map fun y => (List.range 256).map fun x =>
      Map_Cosmo.decodeTile (bufCosmoShort.u16 (6 + 2 * (y * 256 + x))), rfl, ?_, ?_, by decide, rfl⟩
  · simp
  · simp [List.map_map, Function.comp_def, List.map_const']

end Gamemap
